import Mathlib

/-!
Shallow embedding of the XPENSEA expense-reimbursement controller
(src/unnamed/part_000) together with the transaction schema
(src/src/models/transactionModel.js).

Modelling choices, applied uniformly:
  - Mongo document ids are natural numbers; `DB.nextId` supplies fresh ids.
  - Statuses are the literal strings the JavaScript compares against.
  - Monetary amounts are integers.
  - Calendar dates are abstracted to a month index: every record carries the
    month it falls in and `DB.month` is the current month, so the
    moment() start-of-month / end-of-month range test of the source becomes
    equality of month indices.
  - `responseHandler(res, code, message)` becomes the `Res` pair below.
  - A JavaScript property access on a null lookup result throws a TypeError
    which the surrounding try/catch converts into a 500 response; such points
    are modelled by returning `internalErr`.
-/

namespace Xpensea

/-- Outcome of responseHandler: HTTP status code and message. -/
structure Res where
  code : Nat
  msg : String
  deriving DecidableEq, Repr

/-- A tier category entry: title, per-category cap, enabled flag
(the source tests `tierCategory.status === false`). -/
structure Category where
  title : String
  maxAmount : Int
  status : Bool
  deriving DecidableEq, Repr

/-- Tier policy: category list and overall monthly cap. -/
structure Tier where
  categories : List Category
  totalAmount : Int
  deriving DecidableEq, Repr

/-- The fields of a user document that the modelled operations read. -/
structure User where
  id : Nat
  approver : Nat
  tier : Tier
  deriving DecidableEq, Repr

/-- An expense document. -/
structure Expense where
  id : Nat
  user : Nat
  title : String
  category : String
  amount : Int
  status : String
  deriving DecidableEq, Repr

/-- A report document.  `reportId` is the human-readable `Rep#NNN` label,
absent on reports created before the sequential-id scheme (for example the
drafted reports auto-created for events). -/
structure Report where
  id : Nat
  reportId : Option String
  user : Nat
  event : Option Nat
  expenses : List Nat
  status : String
  reportDate : Nat
  title : String
  reason : List String
  approver : Option Nat
  deriving DecidableEq, Repr

/-- An event document: only its id and type (`Admin` / `User`) matter here. -/
structure Event where
  id : Nat
  type : String
  deriving DecidableEq, Repr

/-- A notification emitted to a user about a report (content is the report id). -/
structure Notification where
  content : Nat
  user : Nat
  status : String
  deriving DecidableEq, Repr

/-- An advance-payment transaction (transactionModel.js): receiver of
`requestedBy`, amount, status string, and the month of its `createdAt`. -/
structure Transaction where
  id : Nat
  receiver : Nat
  amount : Int
  status : String
  createdMonth : Nat
  deriving DecidableEq, Repr

/-- A deduction document: user, amount, deducting admin, the month of
`deductOn`, mode (`bank` / `wallet`) and boolean status. -/
structure Deduction where
  id : Nat
  user : Nat
  amount : Int
  deductBy : Nat
  deductMonth : Nat
  mode : String
  status : Bool
  report : Option Nat
  deriving DecidableEq, Repr

/-- The persistent store the controller reads and writes. -/
structure DB where
  expenses : List Expense
  reports : List Report
  events : List Event
  users : List User
  notifications : List Notification
  transactions : List Transaction
  deductions : List Deduction
  nextId : Nat
  month : Nat
  deriving DecidableEq, Repr

/-- The 500 response produced when a thrown error reaches the catch block. -/
def internalErr : Res := ⟨500, "Internal Server Error"⟩

/-- String.padStart(3, "0") of the source. -/
def padStart3 (s : String) : String :=
  if s.length ≥ 3 then s else String.mk (List.replicate (3 - s.length) '0') ++ s

/-- The label computed from a document count:
Rep#((count + 1).toString().padStart(3, "0")). -/
def repNumber (count : Nat) : String :=
  "Rep#" ++ padStart3 (toString (count + 1))

/-- User.findOne({_id: userId}). -/
def findUser (db : DB) (uid : Nat) : Option User :=
  db.users.find? (fun u => u.id == uid)

/-- Report.findById(id). -/
def findReport (db : DB) (rid : Nat) : Option Report :=
  db.reports.find? (fun r => r.id == rid)

/-- Event.findOne({_id: id}). -/
def findEvent (db : DB) (eid : Nat) : Option Event :=
  db.events.find? (fun e => e.id == eid)

/-- Expense.find({_id: {$in: ids}}): the expenses of the store whose id is
referenced, in store order. -/
def candidateExpenses (db : DB) (ids : List Nat) : List Expense :=
  db.expenses.filter (fun e => ids.contains e.id)

/-- Expense.updateMany({_id: {$in: ids}}, {status: st}). -/
def setExpenseStatus (db : DB) (ids : List Nat) (st : String) : DB :=
  { db with expenses := db.expenses.map (fun e =>
      if ids.contains e.id then { e with status := st } else e) }

/-- One step of the `categoryTotals` accumulation: add `a` to the entry of
category `c`, inserting it at the end when absent (JavaScript object keys
keep insertion order). -/
def bump : List (String × Int) → String → Int → List (String × Int)
  | [], c, a => [(c, a)]
  | (t, v) :: rest, c, a =>
    if t = c then (t, v + a) :: rest else (t, v) :: bump rest c a

/-- The first loop of createReport over the fetched expenses: fail when an
expense is already `mapped`, otherwise accumulate per-category totals. -/
def aggregateExpenses (acc : List (String × Int)) : List Expense → Except Res (List (String × Int))
  | [] => .ok acc
  | e :: rest =>
    if e.status = "mapped" then
      .error ⟨400, "Expense with title " ++ e.title ++ " is already mapped."⟩
    else
      aggregateExpenses (bump acc e.category e.amount) rest

/-- The per-category totals of an expense list, with no mapped expense among
them (the pure content of `aggregateExpenses`). -/
def totalsOf (l : List Expense) : List (String × Int) :=
  l.foldl (fun acc e => bump acc e.category e.amount) []

/-- toLowerCase() of the source, character-wise (ASCII case folding). -/
def lowerString (s : String) : String := String.mk (s.data.map Char.toLower)

/-- user.tier.categories.find(cat => cat.title.toLowerCase() === title.toLowerCase()). -/
def findTierCategory (tier : Tier) (t : String) : Option Category :=
  tier.categories.find? (fun c => lowerString c.title == lowerString t)

/-- The category-check loop of createReport over the aggregated totals. -/
def checkCategories (tier : Tier) : List (String × Int) → Option Res
  | [] => none
  | (t, v) :: rest =>
    match findTierCategory tier t with
    | none => some ⟨400, "Category " ++ t ++ " not found."⟩
    | some c =>
      if c.status = false then some ⟨400, "Category " ++ t ++ " is disabled."⟩
      else if v > c.maxAmount then
        some ⟨400, "Total amount for category " ++ t ++ " exceeds the maximum allowed."⟩
      else checkCategories tier rest

/-- Wrapper for the category loop handling the null-user dereference: the loop
body reads `user.tier.categories`, so with at least one aggregated entry and a
missing user the thrown TypeError yields the 500 response; with no entries the
loop body never runs. -/
def checkCategoriesUser (u? : Option User) (totals : List (String × Int)) : Option Res :=
  match totals with
  | [] => none
  | _ :: _ =>
    match u? with
    | none => some internalErr
    | some u => checkCategories u.tier totals

/-- Report.findOne({expenses: {$in: ids}, status: {$in: [approved, reimbursed]}}). -/
def overlappingReport (db : DB) (ids : List Nat) : Option Report :=
  db.reports.find? (fun r =>
    r.expenses.any (fun x => ids.contains x) &&
      (r.status == "approved" || r.status == "reimbursed"))

/-- Sum of the amounts of the expenses fetched for a report
(Expense.find({_id: {$in: report.expenses}})). -/
def reportExpenseTotal (db : DB) (r : Report) : Int :=
  ((db.expenses.filter (fun e => r.expenses.contains e.id)).map (fun e => e.amount)).sum

/-- Report.find({reportDate in the current month, status in [approved, reimbursed]}). -/
def monthReports (db : DB) : List Report :=
  db.reports.filter (fun r =>
    r.reportDate == db.month && (r.status == "approved" || r.status == "reimbursed"))

/-- The `existingTotalAmount` accumulated by createReport: the expense total of
every approved-or-reimbursed report of the current month, tier-wide. -/
def existingMonthlyTotal (db : DB) : Int :=
  ((monthReports db).map (reportExpenseTotal db)).sum

/-- The request body of createReport after schema validation (the validated
fields the modelled checks read). -/
structure CreateReportBody where
  expenses : List Nat
  event : Option Nat
  title : String
  reportDate : Nat
  deriving DecidableEq, Repr

/-- Modelled from the spec: the Report schema (reportModel.js, absent from
src/) supplies the default status of a report created by createReport, which
sets none explicitly; the spec directs that the initial post-creation status
be treated as pending. -/
def newReportStatus : String := "pending"

/-- The `createNewReport` closure of createReport: insert the report, notify
the submitter, then notify the approver.  Reading `user.approver` of a missing
user throws after the first notification, hence the 500 outcome with the
report and first notification already persisted. -/
def createNewReport (db : DB) (userId : Nat) (body : CreateReportBody)
    (label : String) (u? : Option User) : Res × DB :=
  let rep : Report :=
    { id := db.nextId
      reportId := some label
      user := userId
      event := body.event
      expenses := body.expenses
      status := newReportStatus
      reportDate := body.reportDate
      title := body.title
      reason := []
      approver := none }
  let db1 := { db with reports := db.reports ++ [rep], nextId := db.nextId + 1 }
  let db2 := { db1 with notifications := db1.notifications ++ [⟨rep.id, userId, rep.status⟩] }
  match u? with
  | none => (internalErr, db2)
  | some u =>
    (⟨200, "Report created successfully..!"⟩,
      { db2 with notifications := db2.notifications ++ [⟨rep.id, u.approver, rep.status⟩] })

/-- The policy-checked tail of createReport (everything after the Admin-event
branch): mapped check and aggregation, category checks, cross-report overlap
guard, monthly tier total, then mark the expenses mapped and create. -/
def createReportPolicy (db : DB) (userId : Nat) (body : CreateReportBody)
    (label : String) (expenses : List Expense) (u? : Option User) : Res × DB :=
  match aggregateExpenses [] expenses with
  | .error r => (r, db)
  | .ok totals =>
    match checkCategoriesUser u? totals with
    | some r => (r, db)
    | none =>
      match overlappingReport db body.expenses with
      | some r0 =>
        (⟨400, r0.title ++ " is already included some expenses you mapped."⟩, db)
      | none =>
        match u? with
        | none => (internalErr, db)
        | some u =>
          if existingMonthlyTotal db > u.tier.totalAmount then
            (⟨400, "The total amount of existing reports within the last 30 days exceeds your tier limit of "
                ++ toString u.tier.totalAmount ++ "."⟩, db)
          else
            createNewReport (setExpenseStatus db body.expenses "mapped") userId body label u?

/-- exports.createReport.  The label is computed from the current document
count; an Admin event bypasses every policy check; a referenced event that
does not resolve hits `event.type` on null and therefore the catch block
(the dedicated `Event not found` 404 sits below that dereference). -/
def createReport (db : DB) (userId : Nat) (body : CreateReportBody) : Res × DB :=
  let label := repNumber db.reports.length
  if body.expenses.isEmpty then (⟨400, "Expenses are required"⟩, db)
  else
    let expenses := candidateExpenses db body.expenses
    let u? := findUser db userId
    match body.event with
    | some eid =>
      match findEvent db eid with
      | none => (internalErr, db)
      | some ev =>
        if ev.type = "Admin" then
          createNewReport (setExpenseStatus db body.expenses "mapped") userId body label u?
        else
          createReportPolicy db userId body label expenses u?
    | none => createReportPolicy db userId body label expenses u?

/-- exports.updateApproval (route /:id/:action, body {expenses, reason}).
The route parameters are always present on a matched route, so the two
presence guards of the source cannot fire and `id` and `action` are taken
directly. -/
def updateApproval (db : DB) (userId : Nat) (id : Nat) (action : String)
    (expenses : List Nat) (reason : String) : Res × DB :=
  if expenses.isEmpty then (⟨400, "Expenses are required"⟩, db)
  else
    match findReport db id with
    | none => (⟨404, "Approval not found"⟩, db)
    | some findApproval =>
      if findApproval.status ≠ "pending" then (⟨404, "Approval has already done"⟩, db)
      else
        let isApproveAction := action == "approve"
        let newStatus := if isApproveAction then "approved" else "rejected"
        if isApproveAction &&
            (findApproval.expenses.length != expenses.length ||
              !(expenses.all (fun eid => findApproval.expenses.contains eid))) then
          (⟨400, "Expenses do not match"⟩, db)
        else
          let db1 := { db with reports := db.reports.map (fun (r : Report) =>
            if r.id == id then
              { r with
                status := newStatus
                approver := some userId
                reason := r.reason ++ [reason] }
            else r) }
          let db2 := { db1 with notifications :=
            db1.notifications ++ [⟨id, findApproval.user, newStatus⟩] }
          if isApproveAction then
            (⟨200, "Approval " ++ newStatus ++ " successfully"⟩,
              setExpenseStatus db2 expenses newStatus)
          else
            let db3 := setExpenseStatus db2 expenses "rejected"
            let remaining := findApproval.expenses.filter (fun eid => !(expenses.contains eid))
            (⟨200, "Approval " ++ newStatus ++ " successfully"⟩,
              setExpenseStatus db3 remaining "approved")

/-- The patch body of updateReport; only the expense list matters to the
modelled behaviour (`reportId` is written by the function itself when it
backfills a missing label). -/
structure UpdateReportBody where
  expenses : Option (List Nat)
  deriving DecidableEq, Repr

/-- The expense-diff block of updateReport: runs only when the request carries
a nonempty expense list; newly added expenses become `mapped`, removed ones
become `draft`. -/
def updateReportDiff (db : DB) (reportExpenses requestExpenses : List Nat) : DB :=
  if requestExpenses.length > 0 then
    let onlyInRequest := requestExpenses.filter (fun e => !(reportExpenses.contains e))
    let onlyInReport := reportExpenses.filter (fun e => !(requestExpenses.contains e))
    let dbA := if onlyInRequest.length > 0 then setExpenseStatus db onlyInRequest "mapped" else db
    if onlyInReport.length > 0 then setExpenseStatus dbA onlyInReport "draft" else dbA
  else db

/-- The per-report update of findByIdAndUpdate in updateReport: apply the
patch expense list when present, and the backfilled label (computed from the
document count) when the stored label was absent. -/
def patchReportMap (id : Nat) (body : UpdateReportBody) (storedLabel : Option String)
    (count : Nat) : Report → Report :=
  fun rp =>
    if rp.id == id then
      { rp with
        expenses := body.expenses.getD rp.expenses
        reportId := if storedLabel = none then some (repNumber count) else rp.reportId }
    else rp

/-- exports.updateReport: diff the expense lists, backfill a missing `Rep#`
label from the document count, then findByIdAndUpdate with the patch. -/
def updateReport (db : DB) (id : Nat) (body : UpdateReportBody) : Res × DB :=
  match findReport db id with
  | none => (⟨404, "Report not found"⟩, db)
  | some findRep =>
    let requestExpenses := body.expenses.getD []
    let db1 := updateReportDiff db findRep.expenses requestExpenses
    let db2 := { db1 with
      reports := db1.reports.map (patchReportMap id body findRep.reportId db1.reports.length) }
    (⟨200, "Report updated successfully"⟩, db2)

/-- The wallet read-model returned by getWallet (the display list and tier
categories of the response are elided: the claims concern the three totals). -/
structure Wallet where
  totalAmount : Int
  totalExpenses : Int
  balanceAmount : Int
  deriving DecidableEq, Repr

/-- exports.getWallet: completed advances received this month minus
wallet-mode true-status deductions of this month. -/
def getWallet (db : DB) (userId : Nat) : Except Res Wallet :=
  match findUser db userId with
  | none => .error ⟨404, "User not found"⟩
  | some _ =>
    let advances := db.transactions.filter (fun t =>
      t.createdMonth == db.month && t.receiver == userId && t.status == "completed")
    let totalAmount := (advances.map (fun t => t.amount)).sum
    let walletDeductions := db.deductions.filter (fun d =>
      d.deductMonth == db.month && d.mode == "wallet" && d.status && d.user == userId)
    let totalExpenses := (walletDeductions.map (fun d => d.amount)).sum
    .ok ⟨totalAmount, totalExpenses, totalAmount - totalExpenses⟩


/-! Shared lemmas about the embedding. -/

/-- Boolean membership agrees with propositional membership. -/
theorem contains_iff_mem (l : List Nat) (a : Nat) : l.contains a = true ↔ a ∈ l := by
  simp [List.contains, List.elem_iff]

/-- Boolean membership in a filtered list splits into membership and the
filter predicate. -/
theorem contains_filter (l : List Nat) (p : Nat → Bool) (a : Nat) :
    (l.filter p).contains a = (l.contains a && p a) := by
  rw [Bool.eq_iff_iff]
  simp only [contains_iff_mem, Bool.and_eq_true, List.mem_filter]

/-- find? commutes with a map that does not change the tested field. -/
theorem find?_map_eq {α : Type} (l : List α) (f : α → α) (p : α → Bool)
    (hp : ∀ a, p (f a) = p a) :
    (l.map f).find? p = (l.find? p).map f := by
  induction l with
  | nil => rfl
  | cons a t ih =>
    cases h : p a with
    | true =>
      rw [List.map_cons, List.find?_cons_of_pos _ (by rw [hp]; exact h),
        List.find?_cons_of_pos _ h]
      rfl
    | false =>
      rw [List.map_cons, List.find?_cons_of_neg _ (by rw [hp, h]; simp),
        List.find?_cons_of_neg _ (by rw [h]; simp), ih]

/-- With no mapped expense in the list, the first createReport loop succeeds
and returns the pure per-category fold. -/
theorem aggregateExpenses_ok (l : List Expense) (acc : List (String × Int))
    (h : ∀ e ∈ l, e.status ≠ "mapped") :
    aggregateExpenses acc l = .ok (l.foldl (fun a e => bump a e.category e.amount) acc) := by
  induction l generalizing acc with
  | nil => rfl
  | cons e t ih =>
    rw [aggregateExpenses, if_neg (h e (by simp))]
    rw [List.foldl_cons]
    exact ih _ (fun x hx => h x (by simp [hx]))

/-- With a mapped expense in the list, the first createReport loop fails with
the already-mapped message of some expense title. -/
theorem aggregateExpenses_mapped (l : List Expense) (acc : List (String × Int))
    (h : ∃ e ∈ l, e.status = "mapped") :
    ∃ t, aggregateExpenses acc l =
      .error ⟨400, "Expense with title " ++ t ++ " is already mapped."⟩ := by
  induction l generalizing acc with
  | nil => simp at h
  | cons e t ih =>
    by_cases he : e.status = "mapped"
    · exact ⟨e.title, by rw [aggregateExpenses, if_pos he]⟩
    · obtain ⟨x, hx, hxs⟩ := h
      rcases List.mem_cons.mp hx with rfl | hxt
      · exact absurd hxs he
      · rw [aggregateExpenses, if_neg he]
        exact ih _ ⟨x, hxt, hxs⟩

/-- Any error of the first createReport loop carries code 400. -/
theorem aggregateExpenses_error_code (l : List Expense) (acc : List (String × Int))
    (r : Res) (h : aggregateExpenses acc l = .error r) : r.code = 400 := by
  induction l generalizing acc with
  | nil => simp [aggregateExpenses] at h
  | cons e t ih =>
    rw [aggregateExpenses] at h
    by_cases he : e.status = "mapped"
    · rw [if_pos he] at h
      cases h
      rfl
    · rw [if_neg he] at h
      exact ih _ h

/-- A category total violates the tier policy: missing from the tier list
(case-insensitively), disabled, or above the per-category cap. -/
def badCat (tier : Tier) (t : String) (v : Int) : Bool :=
  match findTierCategory tier t with
  | none => true
  | some c => !c.status || decide (v > c.maxAmount)

/-- The response is one of the three category-policy failures of createReport. -/
def isCatErr (r : Res) : Prop :=
  r.code = 400 ∧ ∃ t : String,
    r.msg = "Category " ++ t ++ " not found." ∨
    r.msg = "Category " ++ t ++ " is disabled." ∨
    r.msg = "Total amount for category " ++ t ++ " exceeds the maximum allowed."

/-- With a violating entry among the totals, the category loop stops with one
of the three category-policy failures. -/
theorem checkCategories_bad (tier : Tier) (l : List (String × Int))
    (h : ∃ p ∈ l, badCat tier p.1 p.2 = true) :
    ∃ r, checkCategories tier l = some r ∧ isCatErr r := by
  induction l with
  | nil => simp at h
  | cons p rest ih =>
    obtain ⟨t, v⟩ := p
    cases hf : findTierCategory tier t with
    | none =>
      exact ⟨⟨400, "Category " ++ t ++ " not found."⟩,
        by simp only [checkCategories, hf], rfl, t, Or.inl rfl⟩
    | some c =>
      by_cases hcs : c.status = false
      · exact ⟨⟨400, "Category " ++ t ++ " is disabled."⟩,
          by simp only [checkCategories, hf]; rw [if_pos hcs], rfl, t,
          Or.inr (Or.inl rfl)⟩
      · by_cases hv : v > c.maxAmount
        · exact ⟨⟨400, "Total amount for category " ++ t ++ " exceeds the maximum allowed."⟩,
            by simp only [checkCategories, hf]; rw [if_neg hcs, if_pos hv], rfl, t,
            Or.inr (Or.inr rfl)⟩
        · simp only [checkCategories, hf]
          rw [if_neg hcs, if_neg hv]
          apply ih
          obtain ⟨q, hq, hqbad⟩ := h
          rcases List.mem_cons.mp hq with rfl | hqrest
          · exfalso
            have hct : c.status = true := by
              cases hcc : c.status
              · exact absurd hcc hcs
              · rfl
            rw [badCat, hf] at hqbad
            simp [hct, hv] at hqbad
          · exact ⟨q, hqrest, hqbad⟩

/-- Any response of the category loop carries code 400. -/
theorem checkCategories_some_code (tier : Tier) (l : List (String × Int))
    (r : Res) (h : checkCategories tier l = some r) : r.code = 400 := by
  induction l with
  | nil => simp [checkCategories] at h
  | cons p rest ih =>
    obtain ⟨t, v⟩ := p
    cases hf : findTierCategory tier t with
    | none =>
      simp only [checkCategories, hf] at h
      cases h
      rfl
    | some c =>
      simp only [checkCategories, hf] at h
      by_cases hcs : c.status = false
      · rw [if_pos hcs] at h
        cases h
        rfl
      · rw [if_neg hcs] at h
        by_cases hv : v > c.maxAmount
        · rw [if_pos hv] at h
          cases h
          rfl
        · rw [if_neg hv] at h
          exact ih h

/-- Any response of the user-aware category loop carries code 400 or 500. -/
theorem checkCategoriesUser_some_code (u? : Option User) (l : List (String × Int))
    (r : Res) (h : checkCategoriesUser u? l = some r) : r.code = 400 ∨ r.code = 500 := by
  cases l with
  | nil => simp [checkCategoriesUser] at h
  | cons p rest =>
    cases u? with
    | none =>
      rw [checkCategoriesUser] at h
      cases h
      exact Or.inr rfl
    | some u =>
      rw [checkCategoriesUser] at h
      exact Or.inl (checkCategories_some_code u.tier _ r h)

/-- setExpenseStatus leaves every non-expense table unchanged. -/
theorem setExpenseStatus_reports (db : DB) (ids : List Nat) (st : String) :
    (setExpenseStatus db ids st).reports = db.reports := rfl

/-- The updateReport diff block leaves the report table unchanged. -/
theorem updateReportDiff_reports (db : DB) (a b : List Nat) :
    (updateReportDiff db a b).reports = db.reports := by
  rw [updateReportDiff]
  by_cases h : b.length > 0
  · rw [if_pos h]
    dsimp only
    split <;> split <;> rfl
  · rw [if_neg h]


/-- With a nonempty expense list and no Admin-event bypass (no event, or an
event that resolves to a non-Admin type), createReport reduces to its
policy-checked tail. -/
theorem createReport_nonadmin (db : DB) (userId : Nat) (body : CreateReportBody)
    (hne : body.expenses ≠ [])
    (hev : ∀ eid, body.event = some eid →
      ∃ ev, findEvent db eid = some ev ∧ ev.type ≠ "Admin") :
    createReport db userId body =
      createReportPolicy db userId body (repNumber db.reports.length)
        (candidateExpenses db body.expenses) (findUser db userId) := by
  have hbeF : body.expenses.isEmpty = false := by
    cases hb : body.expenses
    · exact absurd hb hne
    · rfl
  rw [createReport]
  cases hbe : body.event with
  | none => simp only [hbeF, Bool.false_eq_true, if_false]
  | some eid =>
    obtain ⟨ev, hev1, hev2⟩ := hev eid hbe
    simp only [hbeF, Bool.false_eq_true, if_false, hev1]
    rw [if_neg hev2]

/-- With no mapped candidate and a policy-violating category total, the
policy tail stops with a category failure and an unchanged store. -/
theorem createReportPolicy_catErr (db : DB) (uid : Nat) (body : CreateReportBody)
    (label : String) (expenses : List Expense) (u : User)
    (hnm : ∀ e ∈ expenses, e.status ≠ "mapped")
    (hbad : ∃ p ∈ totalsOf expenses, badCat u.tier p.1 p.2 = true) :
    ∃ r, createReportPolicy db uid body label expenses (some u) = (r, db) ∧ isCatErr r := by
  obtain ⟨r, hr, hcat⟩ := checkCategories_bad u.tier (totalsOf expenses) hbad
  have hcu : checkCategoriesUser (some u) (totalsOf expenses) = some r := by
    cases htot : totalsOf expenses with
    | nil =>
      rw [htot] at hbad
      simp at hbad
    | cons q qs =>
      rw [htot] at hr
      exact hr
  refine ⟨r, ?_, hcat⟩
  simp only [totalsOf] at hcu
  simp only [createReportPolicy, aggregateExpenses_ok _ _ hnm, hcu]

def travelTier : Tier := ⟨[⟨"Travel", 200, true⟩], 1000⟩

def userC1 : User := ⟨10, 99, travelTier⟩

def dbC1 : DB :=
  { expenses := [⟨1, 10, "flight", "Travel", 120, "drafted"⟩,
                 ⟨2, 10, "hotel", "Travel", 90, "drafted"⟩]
    reports := []
    events := []
    users := [userC1]
    notifications := []
    transactions := []
    deductions := []
    nextId := 1
    month := 0 }

def bodyC1 : CreateReportBody := ⟨[1, 2], none, "trip", 0⟩

/-- C1: a createReport call without an Admin-event bypass whose aggregated
category totals contain a category missing from the tier list
(case-insensitively), or one present but disabled, or one whose total exceeds
its maxAmount, fails with a category policy violation and leaves the store —
in particular every candidate expense status — unchanged. -/
theorem c1_category_policy_blocks (db : DB) (userId : Nat) (body : CreateReportBody)
    (u : User)
    (hu : findUser db userId = some u)
    (hne : body.expenses ≠ [])
    (hev : ∀ eid, body.event = some eid →
      ∃ ev, findEvent db eid = some ev ∧ ev.type ≠ "Admin")
    (hnm : ∀ e ∈ candidateExpenses db body.expenses, e.status ≠ "mapped")
    (hbad : ∃ p ∈ totalsOf (candidateExpenses db body.expenses),
      badCat u.tier p.1 p.2 = true) :
    ∃ r, createReport db userId body = (r, db) ∧ isCatErr r := by
  rw [createReport_nonadmin db userId body hne hev, hu]
  exact createReportPolicy_catErr db userId body _ _ u hnm hbad

/-- C1 witness: two Travel expenses of 120 and 90 against a Travel cap of
200 are rejected with the store unchanged. -/
theorem c1_category_policy_blocks_witness :
    (∀ e ∈ candidateExpenses dbC1 [1, 2], e.status ≠ "mapped") ∧
    (∃ p ∈ totalsOf (candidateExpenses dbC1 [1, 2]), badCat userC1.tier p.1 p.2 = true) ∧
    (∃ r, createReport dbC1 10 bodyC1 = (r, dbC1) ∧ isCatErr r) :=
  ⟨by decide, by decide,
    c1_category_policy_blocks dbC1 10 bodyC1 userC1 rfl (by decide)
      (fun eid h => nomatch h) (by decide) (by decide)⟩


/-- The tier-limit failure response of createReport. -/
def tierLimitRes (u : User) : Res :=
  ⟨400, "The total amount of existing reports within the last 30 days exceeds your tier limit of "
      ++ toString u.tier.totalAmount ++ "."⟩

/-- The createNewReport closure always reports success when the user exists. -/
theorem createNewReport_fst (db : DB) (uid : Nat) (body : CreateReportBody)
    (label : String) (u : User) :
    (createNewReport db uid body label (some u)).1 =
      ⟨200, "Report created successfully..!"⟩ := rfl

def tierC2 : Tier := ⟨[⟨"travel", 1000, true⟩], 200⟩

def userC2 : User := ⟨10, 99, tierC2⟩

def dbC2 : DB :=
  { expenses := [⟨1, 10, "old", "travel", 200, "approved"⟩,
                 ⟨2, 10, "new", "travel", 50, "drafted"⟩]
    reports := [⟨1, some "Rep#001", 10, none, [1], "approved", 0, "oldrep", [], none⟩]
    events := []
    users := [userC2]
    notifications := []
    transactions := []
    deductions := []
    nextId := 2
    month := 0 }

def bodyC2 : CreateReportBody := ⟨[2], none, "newrep", 0⟩

/-- C2 counterexample: the monthly total of existing approved reports is 200,
exactly the tier cap, and the new report adds 50, so the combined total 250
exceeds the cap; the claim demands a TierLimitExceeded failure, yet the call
succeeds because the code compares only the existing total with the cap. -/
theorem c2_claim_counterexample :
    existingMonthlyTotal dbC2 +
        ((candidateExpenses dbC2 bodyC2.expenses).map (fun e => e.amount)).sum >
      tierC2.totalAmount ∧
    (createReport dbC2 10 bodyC2).1 = ⟨200, "Report created successfully..!"⟩ :=
  ⟨by decide, by decide⟩

/-- C2 (amended): on the non-bypass path that reaches the tier check (no
mapped candidate, categories pass, no overlapping report), createReport fails
with the tier-limit response exactly when the existing monthly total ALONE
exceeds the tier totalAmount; the new report amounts are not added before the
comparison, and on failure the store is unchanged. -/
theorem c2_tier_limit_existing_only (db : DB) (userId : Nat) (body : CreateReportBody)
    (u : User)
    (hu : findUser db userId = some u)
    (hne : body.expenses ≠ [])
    (hev : ∀ eid, body.event = some eid →
      ∃ ev, findEvent db eid = some ev ∧ ev.type ≠ "Admin")
    (hnm : ∀ e ∈ candidateExpenses db body.expenses, e.status ≠ "mapped")
    (hcat : checkCategoriesUser (some u) (totalsOf (candidateExpenses db body.expenses)) = none)
    (hov : overlappingReport db body.expenses = none) :
    ((createReport db userId body).1 = tierLimitRes u ↔
      existingMonthlyTotal db > u.tier.totalAmount) ∧
    (existingMonthlyTotal db > u.tier.totalAmount →
      createReport db userId body = (tierLimitRes u, db)) := by
  rw [createReport_nonadmin db userId body hne hev, hu]
  have hagg := aggregateExpenses_ok (candidateExpenses db body.expenses) [] hnm
  simp only [totalsOf] at hcat
  have hred : createReportPolicy db userId body (repNumber db.reports.length)
      (candidateExpenses db body.expenses) (some u) =
      (if existingMonthlyTotal db > u.tier.totalAmount then (tierLimitRes u, db)
       else createNewReport (setExpenseStatus db body.expenses "mapped") userId body
         (repNumber db.reports.length) (some u)) := by
    simp only [createReportPolicy, hagg, hcat, hov, tierLimitRes]
  rw [hred]
  by_cases hgt : existingMonthlyTotal db > u.tier.totalAmount
  · rw [if_pos hgt]
    exact ⟨⟨fun _ => hgt, fun _ => rfl⟩, fun _ => rfl⟩
  · rw [if_neg hgt]
    refine ⟨⟨fun hres => ?_, fun h => absurd h hgt⟩, fun h => absurd h hgt⟩
    rw [createNewReport_fst] at hres
    have hcode := congrArg Res.code hres
    simp [tierLimitRes] at hcode

def userC2w : User := ⟨10, 99, ⟨[⟨"travel", 1000, true⟩], 200⟩⟩

def dbC2w : DB :=
  { expenses := [⟨1, 10, "old", "travel", 300, "approved"⟩,
                 ⟨2, 10, "new", "travel", 50, "drafted"⟩]
    reports := [⟨1, some "Rep#001", 10, none, [1], "approved", 0, "oldrep", [], none⟩]
    events := []
    users := [userC2w]
    notifications := []
    transactions := []
    deductions := []
    nextId := 2
    month := 0 }

def bodyC2w : CreateReportBody := ⟨[2], none, "newrep", 0⟩

/-- C2 witness: with 300 already approved this month against a cap of 200,
the call fails with the tier-limit response and an unchanged store. -/
theorem c2_tier_limit_existing_only_witness :
    createReport dbC2w 10 bodyC2w =
      (⟨400, "The total amount of existing reports within the last 30 days exceeds your tier limit of 200."⟩,
        dbC2w) := by
  have h := (c2_tier_limit_existing_only dbC2w 10 bodyC2w userC2w rfl (by decide)
    (fun eid hh => nomatch hh) (by decide) (by decide) (by decide)).2 (by decide)
  exact h.trans (by decide)

/-- The per-report update of findByIdAndUpdate in updateApproval. -/
def decideReportMap (uid id : Nat) (reason newStatus : String) : Report → Report :=
  fun rp =>
    if rp.id == id then
      { rp with
        status := newStatus
        approver := some uid
        reason := rp.reason ++ [reason] }
    else rp

/-- The store after the status flip and notification of updateApproval,
before expense reconciliation. -/
def dbAfterDecision (db : DB) (uid id : Nat) (reason newStatus : String) (r : Report) : DB :=
  { db with
    reports := db.reports.map (decideReportMap uid id reason newStatus)
    notifications := db.notifications ++ [⟨id, r.user, newStatus⟩] }

/-- On a pending report, an approve decision reduces to the expense-set guard
followed by the status flip and expense update. -/
theorem updateApproval_approve_eq (db : DB) (uid id : Nat) (supplied : List Nat)
    (reason : String) (r : Report)
    (hr : findReport db id = some r)
    (hp : r.status = "pending")
    (hne : supplied ≠ []) :
    updateApproval db uid id "approve" supplied reason =
      if (r.expenses.length != supplied.length ||
          !(supplied.all (fun x => r.expenses.contains x))) then
        ((⟨400, "Expenses do not match"⟩ : Res), db)
      else
        (⟨200, "Approval approved successfully"⟩,
          setExpenseStatus (dbAfterDecision db uid id reason "approved" r) supplied "approved") := by
  have hie : supplied.isEmpty = false := by
    cases hs : supplied
    · exact absurd hs hne
    · rfl
  simp only [updateApproval, hie, Bool.false_eq_true, if_false, hr]
  rw [if_neg (by simp [hp])]
  rfl

/-- On a pending report, any non-approve decision flips the report to
rejected, marks the supplied expenses rejected and the remaining attached
expenses approved. -/
theorem updateApproval_reject_eq (db : DB) (uid id : Nat) (action : String)
    (supplied : List Nat) (reason : String) (r : Report)
    (hr : findReport db id = some r)
    (hp : r.status = "pending")
    (hne : supplied ≠ [])
    (ha : (action == "approve") = false) :
    updateApproval db uid id action supplied reason =
      (⟨200, "Approval rejected successfully"⟩,
        setExpenseStatus
          (setExpenseStatus (dbAfterDecision db uid id reason "rejected" r) supplied "rejected")
          (r.expenses.filter (fun x => !(supplied.contains x))) "approved") := by
  have hie : supplied.isEmpty = false := by
    cases hs : supplied
    · exact absurd hs hne
    · rfl
  simp only [updateApproval, hie, Bool.false_eq_true, if_false, hr, ha, Bool.false_and]
  rw [if_neg (by simp [hp])]
  rfl


def dbC3 : DB :=
  { expenses := [⟨1, 10, "a", "travel", 10, "mapped"⟩,
                 ⟨2, 10, "b", "travel", 20, "mapped"⟩]
    reports := [⟨1, some "Rep#001", 10, none, [1, 2], "pending", 0, "rep", [], none⟩]
    events := []
    users := [⟨10, 99, travelTier⟩]
    notifications := []
    transactions := []
    deductions := []
    nextId := 2
    month := 0 }

/-- C3 counterexample: the supplied list [1, 1] has the same length as the
stored list [1, 2] and every supplied id is stored, so the guard passes even
though as a set it misses expense 2; the decision succeeds, the report is
approved, and expense 2 is left mapped — the claim demands an ExpenseMismatch
failure with no mutation. -/
theorem c3_claim_counterexample :
    (2 ∈ ([1, 2] : List Nat) ∧ 2 ∉ ([1, 1] : List Nat)) ∧
    (updateApproval dbC3 50 1 "approve" [1, 1] "ok").1 =
      ⟨200, "Approval approved successfully"⟩ ∧
    ((updateApproval dbC3 50 1 "approve" [1, 1] "ok").2.expenses.find?
      (fun e => e.id == 2)).map (fun e => e.status) = some "mapped" ∧
    ((updateApproval dbC3 50 1 "approve" [1, 1] "ok").2.reports.find?
      (fun r => r.id == 1)).map (fun r => r.status) = some "approved" :=
  ⟨by decide, by decide, by decide, by decide⟩

/-- C3 (amended): an approve decision on a pending report fails with
`Expenses do not match` and an unchanged store exactly when the supplied list
has a different length than the stored expense list or contains an id not
stored on the report.  For duplicate-free supplied lists this coincides with
set equality, but a supplied list that repeats stored ids while matching the
stored length is accepted although its id set is a strict subset. -/
theorem c3_approve_mismatch_guard (db : DB) (uid id : Nat) (supplied : List Nat)
    (reason : String) (r : Report)
    (hr : findReport db id = some r)
    (hp : r.status = "pending")
    (hne : supplied ≠ []) :
    updateApproval db uid id "approve" supplied reason =
        (⟨400, "Expenses do not match"⟩, db) ↔
      (r.expenses.length ≠ supplied.length ∨ ∃ x ∈ supplied, x ∉ r.expenses) := by
  rw [updateApproval_approve_eq db uid id supplied reason r hr hp hne]
  have hcond : (r.expenses.length != supplied.length ||
      !(supplied.all (fun x => r.expenses.contains x))) = true ↔
      (r.expenses.length ≠ supplied.length ∨ ∃ x ∈ supplied, x ∉ r.expenses) := by
    simp [List.all_eq_true, contains_iff_mem]
  by_cases hg : (r.expenses.length != supplied.length ||
      !(supplied.all (fun x => r.expenses.contains x))) = true
  · rw [if_pos hg]
    simp only [hcond] at hg
    exact ⟨fun _ => hg, fun _ => rfl⟩
  · rw [if_neg hg]
    constructor
    · intro heq
      have hcode := congrArg (fun p => (Prod.fst p).code) heq
      simp at hcode
    · intro hrhs
      exact absurd (hcond.mpr hrhs) hg

def dbC3w : DB := dbC3

/-- C3 witness: supplying [3, 2] against the stored [1, 2] (a different id)
fails with the mismatch response and leaves the store unchanged. -/
theorem c3_approve_mismatch_guard_witness :
    updateApproval dbC3w 50 1 "approve" [3, 2] "no" =
      (⟨400, "Expenses do not match"⟩, dbC3w) :=
  (c3_approve_mismatch_guard dbC3w 50 1 [3, 2] "no"
      ⟨1, some "Rep#001", 10, none, [1, 2], "pending", 0, "rep", [], none⟩
      (by decide) rfl (by decide)).mpr (by decide)


/-- findReport ignores the expense table. -/
theorem findReport_setExpenseStatus (db : DB) (ids : List Nat) (st : String) (i : Nat) :
    findReport (setExpenseStatus db ids st) i = findReport db i := rfl

/-- After the decision update, the looked-up report is the stored one with
the new status, approver and appended reason. -/
theorem findReport_after_decision (db : DB) (uid id : Nat) (reason newStatus : String)
    (r : Report) (hr : findReport db id = some r) :
    findReport (dbAfterDecision db uid id reason newStatus r) id =
      some { r with
        status := newStatus
        approver := some uid
        reason := r.reason ++ [reason] } := by
  have hr2 : db.reports.find? (fun rp => rp.id == id) = some r := hr
  have hpred : (r.id == id) = true := by
    have h3 := List.find?_some hr2
    simpa using h3
  show (db.reports.map (decideReportMap uid id reason newStatus)).find?
      (fun rp => rp.id == id) = _
  rw [find?_map_eq _ _ _ (fun rp => by
    by_cases h : (rp.id == id) = true
    · simp [decideReportMap, h]
    · simp [decideReportMap, h]), hr2]
  simp [decideReportMap, hpred]

/-- C4: rejecting a pending report with a strict subset of its expenses
succeeds, sets the report status to rejected, marks every supplied expense
rejected and every other expense of the report approved, and leaves no
expense of the report mapped. -/
theorem c4_reject_partition (db : DB) (uid id : Nat) (supplied : List Nat)
    (reason : String) (r : Report)
    (hr : findReport db id = some r)
    (hp : r.status = "pending")
    (hne : supplied ≠ [])
    (hsub : ∀ x ∈ supplied, x ∈ r.expenses)
    (hstrict : ∃ x ∈ r.expenses, x ∉ supplied) :
    (updateApproval db uid id "reject" supplied reason).1 =
      ⟨200, "Approval rejected successfully"⟩ ∧
    (findReport (updateApproval db uid id "reject" supplied reason).2 id).map
      (fun rp => rp.status) = some "rejected" ∧
    (updateApproval db uid id "reject" supplied reason).2.expenses =
      db.expenses.map (fun e =>
        if supplied.contains e.id then { e with status := "rejected" }
        else if r.expenses.contains e.id then { e with status := "approved" }
        else e) ∧
    (∀ e ∈ (updateApproval db uid id "reject" supplied reason).2.expenses,
      r.expenses.contains e.id = true → e.status ≠ "mapped") := by
  rw [updateApproval_reject_eq db uid id "reject" supplied reason r hr hp hne (by decide)]
  have hexp : (setExpenseStatus
      (setExpenseStatus (dbAfterDecision db uid id reason "rejected" r) supplied "rejected")
      (r.expenses.filter (fun x => !(supplied.contains x))) "approved").expenses =
      db.expenses.map (fun e =>
        if supplied.contains e.id then { e with status := "rejected" }
        else if r.expenses.contains e.id then { e with status := "approved" }
        else e) := by
    show ((db.expenses.map (fun e =>
        if supplied.contains e.id then { e with status := "rejected" } else e)).map
          (fun e =>
            if (r.expenses.filter (fun x => !(supplied.contains x))).contains e.id then
              { e with status := "approved" }
            else e)) = _
    rw [List.map_map]
    refine List.map_congr_left ?_
    intro e _
    simp only [Function.comp_apply]
    by_cases hs : e.id ∈ supplied
    · simp [contains_filter, hs]
    · by_cases hcr : e.id ∈ r.expenses
      · simp [contains_filter, hs, hcr]
      · simp [contains_filter, hs, hcr]
  refine ⟨rfl, ?_, hexp, ?_⟩
  · rw [show ((⟨200, "Approval rejected successfully"⟩ : Res),
        setExpenseStatus
          (setExpenseStatus (dbAfterDecision db uid id reason "rejected" r) supplied "rejected")
          (r.expenses.filter (fun x => !(supplied.contains x))) "approved").2 =
        setExpenseStatus
          (setExpenseStatus (dbAfterDecision db uid id reason "rejected" r) supplied "rejected")
          (r.expenses.filter (fun x => !(supplied.contains x))) "approved" from rfl]
    rw [findReport_setExpenseStatus, findReport_setExpenseStatus,
      findReport_after_decision db uid id reason "rejected" r hr]
    rfl
  · intro e he hcont
    rw [show ((⟨200, "Approval rejected successfully"⟩ : Res),
        setExpenseStatus
          (setExpenseStatus (dbAfterDecision db uid id reason "rejected" r) supplied "rejected")
          (r.expenses.filter (fun x => !(supplied.contains x))) "approved").2 =
        setExpenseStatus
          (setExpenseStatus (dbAfterDecision db uid id reason "rejected" r) supplied "rejected")
          (r.expenses.filter (fun x => !(supplied.contains x))) "approved" from rfl, hexp] at he
    obtain ⟨e0, he0, rfl⟩ := List.mem_map.mp he
    by_cases hs : e0.id ∈ supplied
    · simp [hs]
    · by_cases hcr : e0.id ∈ r.expenses
      · simp [hs, hcr]
      · simp [hs, hcr, contains_iff_mem] at hcont

def repC3 : Report := ⟨1, some "Rep#001", 10, none, [1, 2], "pending", 0, "rep", [], none⟩

/-- C4 witness: rejecting the pending report with the strict subset [1] of
its stored expenses [1, 2] rejects the report, rejects expense 1, approves
expense 2, and leaves nothing mapped. -/
theorem c4_reject_partition_witness :
    (updateApproval dbC3 50 1 "reject" [1] "bad").1 =
      ⟨200, "Approval rejected successfully"⟩ ∧
    (findReport (updateApproval dbC3 50 1 "reject" [1] "bad").2 1).map
      (fun rp => rp.status) = some "rejected" ∧
    (updateApproval dbC3 50 1 "reject" [1] "bad").2.expenses =
      dbC3.expenses.map (fun e =>
        if ([1] : List Nat).contains e.id then { e with status := "rejected" }
        else if repC3.expenses.contains e.id then { e with status := "approved" }
        else e) ∧
    (∀ e ∈ (updateApproval dbC3 50 1 "reject" [1] "bad").2.expenses,
      repC3.expenses.contains e.id = true → e.status ≠ "mapped") :=
  c4_reject_partition dbC3 50 1 [1] "bad" repC3 (by decide) rfl (by decide)
    (by decide) (by decide)


/-- A decision on a report that is not pending fails before any write. -/
theorem updateApproval_not_pending (db : DB) (uid id : Nat) (action : String)
    (supplied : List Nat) (reason : String) (r : Report)
    (hne : supplied ≠ [])
    (hr : findReport db id = some r)
    (hnp : r.status ≠ "pending") :
    updateApproval db uid id action supplied reason =
      (⟨404, "Approval has already done"⟩, db) := by
  have hie : supplied.isEmpty = false := by
    cases hs : supplied
    · exact absurd hs hne
    · rfl
  simp only [updateApproval, hie, Bool.false_eq_true, if_false, hr]
  rw [if_pos hnp]

/-- C5: a decision on a report that is not pending fails with
`Approval has already done` and leaves the store unchanged; and whenever a
decision changes the status of the targeted report, the prior status was
pending and the new status is approved or rejected. -/
theorem c5_only_pending_transitions (db : DB) (uid id : Nat) (action : String)
    (supplied : List Nat) (reason : String) (r : Report)
    (hne : supplied ≠ [])
    (hr : findReport db id = some r) :
    (r.status ≠ "pending" →
      updateApproval db uid id action supplied reason =
        (⟨404, "Approval has already done"⟩, db)) ∧
    (∀ r2, findReport (updateApproval db uid id action supplied reason).2 id = some r2 →
      r2.status ≠ r.status →
      r.status = "pending" ∧ (r2.status = "approved" ∨ r2.status = "rejected")) := by
  constructor
  · intro hnp
    exact updateApproval_not_pending db uid id action supplied reason r hne hr hnp
  · intro r2 h2 hdiff
    by_cases hp : r.status = "pending"
    · refine ⟨hp, ?_⟩
      by_cases ha : (action == "approve") = true
      · have haeq : action = "approve" := by simpa using ha
        subst haeq
        rw [updateApproval_approve_eq db uid id supplied reason r hr hp hne] at h2
        by_cases hg : (r.expenses.length != supplied.length ||
            !(supplied.all (fun x => r.expenses.contains x))) = true
        · rw [if_pos hg] at h2
          dsimp only at h2
          rw [hr] at h2
          cases h2
          exact absurd rfl hdiff
        · rw [if_neg hg] at h2
          dsimp only at h2
          rw [findReport_setExpenseStatus,
            findReport_after_decision db uid id reason "approved" r hr] at h2
          cases h2
          exact Or.inl rfl
      · have ha2 : (action == "approve") = false := by simpa using ha
        rw [updateApproval_reject_eq db uid id action supplied reason r hr hp hne ha2] at h2
        dsimp only at h2
        rw [findReport_setExpenseStatus, findReport_setExpenseStatus,
          findReport_after_decision db uid id reason "rejected" r hr] at h2
        cases h2
        exact Or.inr rfl
    · rw [updateApproval_not_pending db uid id action supplied reason r hne hr hp] at h2
      dsimp only at h2
      rw [hr] at h2
      cases h2
      exact absurd rfl hdiff

def dbC5 : DB :=
  { expenses := [⟨1, 10, "a", "travel", 10, "approved"⟩]
    reports := [⟨1, some "Rep#001", 10, none, [1], "approved", 0, "rep", [], none⟩]
    events := []
    users := [⟨10, 99, travelTier⟩]
    notifications := []
    transactions := []
    deductions := []
    nextId := 2
    month := 0 }

/-- C5 witness: deciding on an already-approved report fails with
`Approval has already done` and the store is unchanged. -/
theorem c5_only_pending_transitions_witness :
    updateApproval dbC5 50 1 "approve" [1] "again" =
      (⟨404, "Approval has already done"⟩, dbC5) :=
  (c5_only_pending_transitions dbC5 50 1 "approve" [1] "again"
      ⟨1, some "Rep#001", 10, none, [1], "approved", 0, "rep", [], none⟩
      (by decide) rfl).1 (by decide)


def dbC6 : DB :=
  { expenses := [⟨5, 10, "x", "Travel", 10, "rejected"⟩]
    reports := []
    events := []
    users := [⟨10, 99, travelTier⟩]
    notifications := []
    transactions := []
    deductions := []
    nextId := 1
    month := 0 }

/-- C6 counterexample: expense 5 already carries the later status `rejected`,
yet createReport succeeds in including it in a new report — the mapped guard
tests only the exact string `mapped`, so the claimed failure for statuses
later than mapped does not occur. -/
theorem c6_claim_counterexample :
    (dbC6.expenses.find? (fun e => e.id == 5)).map (fun e => e.status) =
      some "rejected" ∧
    (createReport dbC6 10 ⟨[5], none, "again", 0⟩).1 =
      ⟨200, "Report created successfully..!"⟩ :=
  ⟨by decide, by decide⟩

/-- C6 (amended): on the non-bypass path, createReport fails with the
already-mapped response — naming the title of a candidate expense — before
any state change, whenever some candidate expense has status exactly
`mapped`; statuses approved, rejected and reimbursed do not trigger this
guard (approved or reimbursed expenses still attached to an approved or
reimbursed report are caught later by the overlap guard, and rejected
expenses are not blocked at all). -/
theorem c6_mapped_only_guard (db : DB) (uid : Nat) (body : CreateReportBody)
    (hne : body.expenses ≠ [])
    (hev : ∀ eid, body.event = some eid →
      ∃ ev, findEvent db eid = some ev ∧ ev.type ≠ "Admin")
    (hm : ∃ e ∈ candidateExpenses db body.expenses, e.status = "mapped") :
    ∃ t, createReport db uid body =
      (⟨400, "Expense with title " ++ t ++ " is already mapped."⟩, db) := by
  rw [createReport_nonadmin db uid body hne hev]
  obtain ⟨t, ht⟩ := aggregateExpenses_mapped (candidateExpenses db body.expenses) [] hm
  refine ⟨t, ?_⟩
  simp only [createReportPolicy, ht]

/-- C6 witness: an expense with status mapped makes createReport fail with
the already-mapped message and leaves the store unchanged. -/
theorem c6_mapped_only_guard_witness :
    (∃ e ∈ candidateExpenses dbC3 [1], e.status = "mapped") ∧
    (∃ t, createReport dbC3 10 ⟨[1], none, "x", 0⟩ =
      (⟨400, "Expense with title " ++ t ++ " is already mapped."⟩, dbC3)) :=
  ⟨by decide,
    c6_mapped_only_guard dbC3 10 ⟨[1], none, "x", 0⟩ (by decide)
      (fun eid h => nomatch h) (by decide)⟩

def dbC7 : DB :=
  { expenses := [⟨5, 10, "lunch", "Travel", 10, "drafted"⟩]
    reports := [⟨1, none, 10, none, [], "drafted", 0, "old", [], none⟩]
    events := []
    users := [⟨10, 99, travelTier⟩]
    notifications := []
    transactions := []
    deductions := []
    nextId := 2
    month := 0 }

def ubodyC7 : UpdateReportBody := ⟨none⟩

def cbodyC7 : CreateReportBody := ⟨[5], none, "new", 0⟩

/-- C7 counterexample: the store holds one unlabeled report, so the
updateReport backfill assigns Rep#002 (count 1 + 1) without adding a
document; the next createReport counts the same single document and assigns
Rep#002 again — two distinct reports end up with the same label, refuting
strictly-increasing uniqueness across creations and backfills. -/
theorem c7_claim_counterexample :
    (updateReport dbC7 1 ubodyC7).1 = ⟨200, "Report updated successfully"⟩ ∧
    (createReport (updateReport dbC7 1 ubodyC7).2 10 cbodyC7).1 =
      ⟨200, "Report created successfully..!"⟩ ∧
    ((createReport (updateReport dbC7 1 ubodyC7).2 10 cbodyC7).2.reports.map
      (fun r => (r.id, r.reportId))) =
      [(1, some "Rep#002"), (2, some "Rep#002")] :=
  ⟨by decide, by decide, by decide⟩

/-- The createNewReport closure appends exactly one report carrying the
computed label, whether or not the user lookup succeeded. -/
theorem createNewReport_reports (db : DB) (uid : Nat) (body : CreateReportBody)
    (label : String) (u? : Option User) :
    ((createNewReport db uid body label u?).2.reports).map (fun r => r.reportId) =
      db.reports.map (fun r => r.reportId) ++ [some label] := by
  cases u? <;> simp [createNewReport]

/-- A policy-tail call that reports success is the create step itself. -/
theorem createReportPolicy_200 (db : DB) (uid : Nat) (body : CreateReportBody)
    (label : String) (expenses : List Expense) (u? : Option User)
    (h : (createReportPolicy db uid body label expenses u?).1.code = 200) :
    createReportPolicy db uid body label expenses u? =
      createNewReport (setExpenseStatus db body.expenses "mapped") uid body label u? := by
  simp only [createReportPolicy] at h ⊢
  cases hagg : aggregateExpenses [] expenses with
  | error r =>
    simp only [hagg] at h
    have h4 := aggregateExpenses_error_code expenses [] r hagg
    omega
  | ok totals =>
    simp only [hagg] at h ⊢
    cases hcat : checkCategoriesUser u? totals with
    | some r =>
      simp only [hcat] at h
      rcases checkCategoriesUser_some_code u? totals r hcat with h4 | h4 <;> omega
    | none =>
      simp only [hcat] at h ⊢
      cases hov : overlappingReport db body.expenses with
      | some r0 =>
        simp [hov] at h
      | none =>
        simp only [hov] at h ⊢
        cases u? with
        | none =>
          simp [internalErr] at h
        | some u =>
          dsimp only at h ⊢
          by_cases hgt : existingMonthlyTotal db > u.tier.totalAmount
          · rw [if_pos hgt] at h
            simp at h
          · rw [if_neg hgt] at h ⊢

/-- C7 (amended): every label assigned by a successful createReport is
Rep#(zero-padded count of report documents at call time + 1), appended after
the unchanged prior labels, and an updateReport backfill on a report without
a label assigns the same count-derived label without adding a document — so
labels are unique across successful creations alone, but a backfill can
duplicate the next creation label. -/
theorem c7_label_form :
    (∀ db uid body, (createReport db uid body).1.code = 200 →
      ((createReport db uid body).2.reports).map (fun r => r.reportId) =
        db.reports.map (fun r => r.reportId) ++ [some (repNumber db.reports.length)]) ∧
    (∀ db id body r, findReport db id = some r → r.reportId = none →
      ∀ r2, findReport (updateReport db id body).2 id = some r2 →
        r2.reportId = some (repNumber db.reports.length)) := by
  constructor
  · intro db uid body h
    by_cases hbe : body.expenses.isEmpty = true
    · rw [createReport] at h
      rw [if_pos hbe] at h
      simp at h
    · have hbeF : body.expenses.isEmpty = false := by simpa using hbe
      rw [createReport] at h ⊢
      simp only [hbeF, Bool.false_eq_true, if_false] at h ⊢
      cases hbev : body.event with
      | none =>
        simp only [hbev] at h ⊢
        rw [createReportPolicy_200 _ _ _ _ _ _ h, createNewReport_reports,
          setExpenseStatus_reports]
      | some eid =>
        simp only [hbev] at h ⊢
        cases hfe : findEvent db eid with
        | none =>
          simp [hfe, internalErr] at h
        | some ev =>
          simp only [hfe] at h ⊢
          by_cases hty : ev.type = "Admin"
          · rw [if_pos hty]
            rw [createNewReport_reports, setExpenseStatus_reports]
          · rw [if_neg hty] at h ⊢
            rw [createReportPolicy_200 _ _ _ _ _ _ h, createNewReport_reports,
              setExpenseStatus_reports]
  · intro db id body r hrfind hnone r2 h2
    rw [updateReport] at h2
    simp only [hrfind] at h2
    have hpres : ∀ (count : Nat) (rp : Report),
        ((patchReportMap id body r.reportId count rp).id == id) = (rp.id == id) := by
      intro count rp
      by_cases hh : (rp.id == id) = true
      · simp [patchReportMap, hh]
      · simp [patchReportMap, hh]
    have h3 : ((updateReportDiff db r.expenses (body.expenses.getD [])).reports.map
        (patchReportMap id body r.reportId
          (updateReportDiff db r.expenses (body.expenses.getD [])).reports.length)).find?
        (fun rp => rp.id == id) = some r2 := h2
    rw [updateReportDiff_reports] at h3
    rw [find?_map_eq _ _ _ (hpres db.reports.length)] at h3
    have hr2 : db.reports.find? (fun rp => rp.id == id) = some r := hrfind
    rw [hr2] at h3
    have hpred : (r.id == id) = true := by
      have h4 := List.find?_some hr2
      simpa using h4
    cases h3
    simp [patchReportMap, hpred, hnone, updateReportDiff_reports]

def dbC7w : DB :=
  { expenses := [⟨5, 10, "lunch", "Travel", 10, "drafted"⟩]
    reports := [⟨1, some "Rep#001", 10, none, [], "pending", 0, "one", [], none⟩,
                ⟨2, some "Rep#002", 10, none, [], "pending", 0, "two", [], none⟩]
    events := []
    users := [⟨10, 99, travelTier⟩]
    notifications := []
    transactions := []
    deductions := []
    nextId := 3
    month := 0 }

/-- C7 witness: with 2 existing reports the next successful creation appends
the label Rep#003 after the unchanged prior labels. -/
theorem c7_label_form_witness :
    ((createReport dbC7w 10 cbodyC7).2.reports).map (fun r => r.reportId) =
      dbC7w.reports.map (fun r => r.reportId) ++ [some (repNumber dbC7w.reports.length)] :=
  c7_label_form.1 dbC7w 10 cbodyC7 (by decide)


/-- With a nonempty request list, the updateReport diff marks expenses only
in the request `mapped` and expenses only on the report `draft`, leaving the
rest untouched. -/
theorem updateReportDiff_expenses (db : DB) (R req : List Nat) (hne : req ≠ []) :
    (updateReportDiff db R req).expenses = db.expenses.map (fun e =>
      if req.contains e.id && !(R.contains e.id) then { e with status := "mapped" }
      else if R.contains e.id && !(req.contains e.id) then { e with status := "draft" }
      else e) := by
  have hlen : req.length > 0 := List.length_pos.mpr hne
  rw [updateReportDiff, if_pos hlen]
  dsimp only
  by_cases h1 : (req.filter (fun e => !(R.contains e))).length > 0
  · rw [if_pos h1]
    by_cases h2 : (R.filter (fun e => !(req.contains e))).length > 0
    · rw [if_pos h2]
      show ((db.expenses.map (fun e =>
          if (req.filter (fun x => !(R.contains x))).contains e.id then
            { e with status := "mapped" }
          else e)).map (fun e =>
          if (R.filter (fun x => !(req.contains x))).contains e.id then
            { e with status := "draft" }
          else e)) = _
      rw [List.map_map]
      refine List.map_congr_left ?_
      intro e _
      simp only [Function.comp_apply]
      by_cases hq : e.id ∈ req <;> by_cases hR : e.id ∈ R <;>
        simp [contains_filter, hq, hR]
    · rw [if_neg h2]
      have h2e : R.filter (fun e => !(req.contains e)) = [] :=
        List.length_eq_zero.mp (Nat.eq_zero_of_not_pos h2)
      show (db.expenses.map (fun e =>
          if (req.filter (fun x => !(R.contains x))).contains e.id then
            { e with status := "mapped" }
          else e)) = _
      refine List.map_congr_left ?_
      intro e _
      by_cases hq : e.id ∈ req
      · by_cases hR : e.id ∈ R <;> simp [contains_filter, hq, hR]
      · by_cases hR : e.id ∈ R
        · exfalso
          have hmem : e.id ∈ R.filter (fun x => !(req.contains x)) :=
            List.mem_filter.mpr ⟨hR, by simp [contains_iff_mem, hq]⟩
          rw [h2e] at hmem
          simp at hmem
        · simp [contains_filter, hq, hR]
  · rw [if_neg h1]
    have h1e : req.filter (fun e => !(R.contains e)) = [] :=
      List.length_eq_zero.mp (Nat.eq_zero_of_not_pos h1)
    by_cases h2 : (R.filter (fun e => !(req.contains e))).length > 0
    · rw [if_pos h2]
      show (db.expenses.map (fun e =>
          if (R.filter (fun x => !(req.contains x))).contains e.id then
            { e with status := "draft" }
          else e)) = _
      refine List.map_congr_left ?_
      intro e _
      by_cases hq : e.id ∈ req
      · by_cases hR : e.id ∈ R
        · simp [contains_filter, hq, hR]
        · exfalso
          have hmem : e.id ∈ req.filter (fun x => !(R.contains x)) :=
            List.mem_filter.mpr ⟨hq, by simp [contains_iff_mem, hR]⟩
          rw [h1e] at hmem
          simp at hmem
      · by_cases hR : e.id ∈ R
        · simp [contains_filter, hq, hR]
        · simp [contains_filter, hq, hR]
    · rw [if_neg h2]
      have h2e : R.filter (fun e => !(req.contains e)) = [] :=
        List.length_eq_zero.mp (Nat.eq_zero_of_not_pos h2)
      symm
      refine (List.map_congr_left ?_).trans (List.map_id _)
      intro e _
      by_cases hq : e.id ∈ req
      · by_cases hR : e.id ∈ R
        · simp [hq, hR]
        · exfalso
          have hmem : e.id ∈ req.filter (fun x => !(R.contains x)) :=
            List.mem_filter.mpr ⟨hq, by simp [contains_iff_mem, hR]⟩
          rw [h1e] at hmem
          simp at hmem
      · by_cases hR : e.id ∈ R
        · exfalso
          have hmem : e.id ∈ R.filter (fun x => !(req.contains x)) :=
            List.mem_filter.mpr ⟨hR, by simp [contains_iff_mem, hq]⟩
          rw [h2e] at hmem
          simp at hmem
        · simp [hq, hR]


/-- C8: for an existing user, getWallet returns the sum of completed
transactions received this month as totalAmount, the sum of wallet-mode
true-status deductions of this month as totalExpenses, and their difference
as balanceAmount. -/
theorem c8_wallet_balance (db : DB) (userId : Nat) (u : User)
    (hu : findUser db userId = some u) :
    ∃ w, getWallet db userId = .ok w ∧
      w.totalAmount = ((db.transactions.filter (fun t =>
        t.createdMonth == db.month && t.receiver == userId &&
          t.status == "completed")).map (fun t => t.amount)).sum ∧
      w.totalExpenses = ((db.deductions.filter (fun d =>
        d.deductMonth == db.month && d.mode == "wallet" && d.status &&
          d.user == userId)).map (fun d => d.amount)).sum ∧
      w.balanceAmount = w.totalAmount - w.totalExpenses := by
  refine ⟨⟨((db.transactions.filter (fun t =>
      t.createdMonth == db.month && t.receiver == userId &&
        t.status == "completed")).map (fun t => t.amount)).sum,
    ((db.deductions.filter (fun d =>
      d.deductMonth == db.month && d.mode == "wallet" && d.status &&
        d.user == userId)).map (fun d => d.amount)).sum,
    ((db.transactions.filter (fun t =>
      t.createdMonth == db.month && t.receiver == userId &&
        t.status == "completed")).map (fun t => t.amount)).sum -
      ((db.deductions.filter (fun d =>
        d.deductMonth == db.month && d.mode == "wallet" && d.status &&
          d.user == userId)).map (fun d => d.amount)).sum⟩, ?_, rfl, rfl, rfl⟩
  simp only [getWallet, hu]

def dbC8 : DB :=
  { expenses := []
    reports := []
    events := []
    users := [⟨10, 99, travelTier⟩]
    notifications := []
    transactions := [⟨1, 10, 500, "completed", 0⟩]
    deductions := [⟨1, 10, 120, 99, 0, "wallet", true, none⟩,
                   ⟨2, 10, 30, 99, 0, "wallet", true, none⟩]
    nextId := 1
    month := 0 }

/-- C8 witness: one completed transaction of 500 and two wallet deductions of
120 and 30 in the current month yield a balance of 350. -/
theorem c8_wallet_balance_witness :
    (∃ w, getWallet dbC8 10 = .ok w ∧
      w.totalAmount = ((dbC8.transactions.filter (fun t =>
        t.createdMonth == dbC8.month && t.receiver == 10 &&
          t.status == "completed")).map (fun t => t.amount)).sum ∧
      w.totalExpenses = ((dbC8.deductions.filter (fun d =>
        d.deductMonth == dbC8.month && d.mode == "wallet" && d.status &&
          d.user == 10)).map (fun d => d.amount)).sum ∧
      w.balanceAmount = w.totalAmount - w.totalExpenses) ∧
    getWallet dbC8 10 = .ok ⟨500, 150, 350⟩ :=
  ⟨c8_wallet_balance dbC8 10 ⟨10, 99, travelTier⟩ rfl, rfl⟩

def dbC9 : DB :=
  { expenses := [⟨5, 10, "x", "Travel", 10, "mapped"⟩]
    reports := [⟨1, some "Rep#001", 10, none, [5], "pending", 0, "rep", [], none⟩]
    events := []
    users := [⟨10, 99, travelTier⟩]
    notifications := []
    transactions := []
    deductions := []
    nextId := 2
    month := 0 }

/-- C9 counterexample: a patch whose expense list is empty skips the diff
entirely — expense 5 is stored on the report and absent from the patch, yet
it keeps status mapped instead of being reverted to draft, while the stored
expense list is still overwritten to []. -/
theorem c9_claim_counterexample :
    (updateReport dbC9 1 ⟨some []⟩).1 = ⟨200, "Report updated successfully"⟩ ∧
    ((updateReport dbC9 1 ⟨some []⟩).2.expenses.find? (fun e => e.id == 5)).map
      (fun e => e.status) = some "mapped" ∧
    (findReport (updateReport dbC9 1 ⟨some []⟩).2 1).map (fun r => r.expenses) =
      some [] :=
  ⟨by decide, by decide, by decide⟩

/-- C9 (amended): when the patch carries a NONEMPTY expense list, updateReport
marks expenses present in the patch but not stored `mapped`, reverts expenses
stored but absent from the patch to `draft`, and stores the patch list on the
report; with an empty or missing patch list no expense status changes. -/
theorem c9_diff_nonempty_patch (db : DB) (id : Nat) (body : UpdateReportBody)
    (req : List Nat) (r : Report)
    (hr : findReport db id = some r)
    (hb : body.expenses = some req)
    (hne : req ≠ []) :
    (updateReport db id body).1 = ⟨200, "Report updated successfully"⟩ ∧
    (updateReport db id body).2.expenses = db.expenses.map (fun e =>
      if req.contains e.id && !(r.expenses.contains e.id) then { e with status := "mapped" }
      else if r.expenses.contains e.id && !(req.contains e.id) then { e with status := "draft" }
      else e) ∧
    (findReport (updateReport db id body).2 id).map (fun rp => rp.expenses) = some req := by
  have hgd : body.expenses.getD [] = req := by rw [hb]; rfl
  refine ⟨?_, ?_, ?_⟩
  · rw [updateReport]
    simp only [hr]
  · rw [updateReport]
    simp only [hr]
    show (updateReportDiff db r.expenses (body.expenses.getD [])).expenses = _
    rw [hgd]
    exact updateReportDiff_expenses db r.expenses req hne
  · rw [updateReport]
    simp only [hr]
    have hpres : ∀ (count : Nat) (rp : Report),
        ((patchReportMap id body r.reportId count rp).id == id) = (rp.id == id) := by
      intro count rp
      by_cases hh : (rp.id == id) = true
      · simp [patchReportMap, hh]
      · simp [patchReportMap, hh]
    have h3 : ((updateReportDiff db r.expenses (body.expenses.getD [])).reports.map
        (patchReportMap id body r.reportId
          (updateReportDiff db r.expenses (body.expenses.getD [])).reports.length)).find?
        (fun rp => rp.id == id) = (db.reports.find? (fun rp => rp.id == id)).map
          (patchReportMap id body r.reportId db.reports.length) := by
      rw [updateReportDiff_reports]
      exact find?_map_eq _ _ _ (hpres db.reports.length)
    have hr2 : db.reports.find? (fun rp => rp.id == id) = some r := hr
    have hpred : (r.id == id) = true := by
      have h4 := List.find?_some hr2
      simpa using h4
    show (((updateReportDiff db r.expenses (body.expenses.getD [])).reports.map
        (patchReportMap id body r.reportId
          (updateReportDiff db r.expenses (body.expenses.getD [])).reports.length)).find?
        (fun rp => rp.id == id)).map (fun rp => rp.expenses) = some req
    rw [h3, hr2]
    simp [patchReportMap, hpred, hb]

def dbC9w : DB :=
  { expenses := [⟨1, 10, "a", "Travel", 10, "mapped"⟩,
                 ⟨2, 10, "b", "Travel", 20, "drafted"⟩]
    reports := [⟨1, some "Rep#001", 10, none, [1], "drafted", 0, "rep", [], none⟩]
    events := []
    users := [⟨10, 99, travelTier⟩]
    notifications := []
    transactions := []
    deductions := []
    nextId := 2
    month := 0 }

def repC9w : Report := ⟨1, some "Rep#001", 10, none, [1], "drafted", 0, "rep", [], none⟩

/-- C9 witness: patching the report from stored [1] to [2] marks expense 2
mapped, reverts expense 1 to draft, and stores [2] on the report. -/
theorem c9_diff_nonempty_patch_witness :
    (updateReport dbC9w 1 ⟨some [2]⟩).1 = ⟨200, "Report updated successfully"⟩ ∧
    (updateReport dbC9w 1 ⟨some [2]⟩).2.expenses = dbC9w.expenses.map (fun e =>
      if ([2] : List Nat).contains e.id && !(repC9w.expenses.contains e.id) then
        { e with status := "mapped" }
      else if repC9w.expenses.contains e.id && !(([2] : List Nat).contains e.id) then
        { e with status := "draft" }
      else e) ∧
    (findReport (updateReport dbC9w 1 ⟨some [2]⟩).2 1).map (fun rp => rp.expenses) =
      some [2] :=
  c9_diff_nonempty_patch dbC9w 1 ⟨some [2]⟩ [2] repC9w rfl rfl (by decide)


/-- The createNewReport closure answers 500 (missing user dereference) or 200. -/
theorem createNewReport_code (db : DB) (uid : Nat) (body : CreateReportBody)
    (label : String) (u? : Option User) :
    (createNewReport db uid body label u?).1.code = 500 ∨
      (createNewReport db uid body label u?).1.code = 200 := by
  cases u? <;> simp [createNewReport, internalErr]

/-- The policy tail of createReport never answers 404. -/
theorem createReportPolicy_code_ne_404 (db : DB) (uid : Nat) (body : CreateReportBody)
    (label : String) (expenses : List Expense) (u? : Option User) :
    (createReportPolicy db uid body label expenses u?).1.code ≠ 404 := by
  simp only [createReportPolicy]
  cases hagg : aggregateExpenses [] expenses with
  | error r =>
    have h4 := aggregateExpenses_error_code expenses [] r hagg
    dsimp only
    omega
  | ok totals =>
    dsimp only
    cases hcat : checkCategoriesUser u? totals with
    | some r =>
      have h4 := checkCategoriesUser_some_code u? totals r hcat
      dsimp only
      rcases h4 with h4 | h4 <;> omega
    | none =>
      dsimp only
      cases hov : overlappingReport db body.expenses with
      | some r0 => simp
      | none =>
        dsimp only
        cases u? with
        | none => simp [internalErr]
        | some u =>
          dsimp only
          by_cases hgt : existingMonthlyTotal db > u.tier.totalAmount
          · rw [if_pos hgt]
            simp
          · rw [if_neg hgt]
            rcases createNewReport_code (setExpenseStatus db body.expenses "mapped")
              uid body label (some u) with h | h <;> omega

/-- createReport never answers 404: all its failure codes are 400 or 500 and
its success code is 200, so in particular the `Event not found` branch below
the `event.type` dereference is unreachable. -/
theorem createReport_code_ne_404 (db : DB) (uid : Nat) (body : CreateReportBody) :
    (createReport db uid body).1.code ≠ 404 := by
  rw [createReport]
  by_cases hbe : body.expenses.isEmpty = true
  · rw [if_pos hbe]
    simp
  · have hbeF : body.expenses.isEmpty = false := by simpa using hbe
    simp only [hbeF, Bool.false_eq_true, if_false]
    cases hbev : body.event with
    | none =>
      simp only [hbev]
      exact createReportPolicy_code_ne_404 db uid body _ _ _
    | some eid =>
      simp only [hbev]
      cases hfe : findEvent db eid with
      | none =>
        simp only [hfe]
        simp [internalErr]
      | some ev =>
        simp only [hfe]
        by_cases hty : ev.type = "Admin"
        · rw [if_pos hty]
          rcases createNewReport_code (setExpenseStatus db body.expenses "mapped")
            uid body (repNumber db.reports.length) (findUser db uid) with h | h <;> omega
        · rw [if_neg hty]
          exact createReportPolicy_code_ne_404 db uid body _ _ _

/-- C10: when the referenced event id does not resolve, createReport answers
the Internal 500 response (the `event.type` dereference on null throws before
the existence check) with the store unchanged; and no createReport call ever
answers the dedicated `Event not found` 404 — that branch is unreachable. -/
theorem c10_missing_event_internal (db : DB) (uid : Nat) (body : CreateReportBody)
    (eid : Nat)
    (hb : body.event = some eid)
    (hev : findEvent db eid = none)
    (hne : body.expenses ≠ []) :
    createReport db uid body = (internalErr, db) ∧
    internalErr.code = 500 ∧
    (∀ db2 uid2 body2, (createReport db2 uid2 body2).1 ≠ ⟨404, "Event not found"⟩) := by
  refine ⟨?_, rfl, ?_⟩
  · have hbeF : body.expenses.isEmpty = false := by
      cases hbl : body.expenses
      · exact absurd hbl hne
      · rfl
    rw [createReport]
    simp only [hbeF, Bool.false_eq_true, if_false, hb, hev]
  · intro db2 uid2 body2 heq
    exact createReport_code_ne_404 db2 uid2 body2 (by rw [heq])

/-- C10 witness: referencing the absent event 7 yields the Internal 500
response, not the 404 `Event not found`. -/
theorem c10_missing_event_internal_witness :
    createReport dbC6 10 ⟨[5], some 7, "ev", 0⟩ = (internalErr, dbC6) ∧
    internalErr.code = 500 ∧
    (∀ db2 uid2 body2, (createReport db2 uid2 body2).1 ≠ ⟨404, "Event not found"⟩) :=
  c10_missing_event_internal dbC6 10 ⟨[5], some 7, "ev", 0⟩ 7 rfl (by decide) (by decide)

end Xpensea
